import Mathlib

/-!
Verification development for the markdown-os repository.

The development gives a shallow embedding of the file-access and
change-notification core of the repository:

- src/markdown_os/file_handler.py   (FileHandler: read, write, staging)
- src/markdown_os/directory_handler.py (DirectoryHandler: path resolution,
  listing, cache, create/rename/delete)
- src/markdown_os/server.py         (watcher event filtering, websocket hub,
  external-change broadcast)

Filesystem paths are modelled as lists of segments measured from the
filesystem root; a symlink-free filesystem is modelled explicitly, so
Path.resolve() is pure segment normalization.  Python strings are Lean
strings (the UTF-8 encode/decode layer is invisible because every content
value written by the code is a valid unicode string); the
universal-newline translation that `Path.read_text` performs on read is
modelled explicitly.  Fallible OS calls take an explicit fault-injection
argument.  Clock values are rationals.
-/

namespace MarkdownOS

/-! ## Character and string utilities (kernel-computable replacements for
the Python `str` operations used by the source). -/

/-- ASCII lower-casing of one character, as used by Python `str.lower`
on the ASCII range (the repository only compares ASCII extensions). -/
def lowerChar (c : Char) : Char :=
  if c.toNat ≥ 65 && c.toNat ≤ 90 then Char.ofNat (c.toNat + 32) else c

/-- Lower-case a whole string, character by character. -/
def lowerStr (s : String) : String :=
  ⟨s.data.map lowerChar⟩

/-- Split a character list on a separator character; mirrors
Python `str.split(sep)` (always returns at least one piece). -/
def splitOnChar (c : Char) : List Char → List (List Char)
  | [] => [[]]
  | x :: xs =>
    let r := splitOnChar c xs
    if x = c then [] :: r
    else (x :: r.headD []) :: r.tail

/-- Code-point lexicographic comparison of character lists; mirrors
Python string `<=` (code-point order). -/
def charListLe : List Char → List Char → Bool
  | [], _ => true
  | _ :: _, [] => false
  | a :: as, b :: bs =>
    if a.toNat < b.toNat then true
    else if b.toNat < a.toNat then false
    else charListLe as bs

/-- Case-insensitive string comparison used by the repository sort keys
(`key=lambda p: p.as_posix().lower()` and the tree sort). -/
def caseLe (a b : String) : Prop :=
  charListLe (a.data.map lowerChar) (b.data.map lowerChar) = true

instance : DecidableRel caseLe := fun a b => by unfold caseLe; infer_instance

/-- Test whether one string starts with another; mirrors
Python `str.startswith`. -/
def strStartsWith (s pre : String) : Bool :=
  pre.data.isPrefixOf s.data

/-- Replace every backslash by a forward slash; mirrors
`relative_path.replace("\\", "/")`. -/
def normalizeSlashes (s : String) : String :=
  ⟨s.data.map (fun ch => if ch = '\\' then '/' else ch)⟩

/-- A path string is absolute when it starts with a slash; mirrors
`PurePosixPath.is_absolute`. -/
def isAbsolutePath (s : String) : Bool :=
  match s.data with
  | [] => false
  | c :: _ => c = '/'

/-- Parse a relative path string into its segments; mirrors `pathlib`
construction, which drops empty segments and single dots but keeps `..`. -/
def parseSegs (s : String) : List String :=
  ((splitOnChar '/' s.data).map (fun cs => (⟨cs⟩ : String))).filter
    (fun seg => decide (seg ≠ "" ∧ seg ≠ "."))

/-- Resolve segments against a base, eliminating `..` segments; mirrors
`Path.resolve()` on a symlink-free tree, where `/..` stays at `/`. -/
def resolveSegs (base : List String) : List String → List String
  | [] => base
  | seg :: rest =>
    if seg = ".." then resolveSegs base.dropLast rest
    else resolveSegs (base ++ [seg]) rest

/-- Last segment of a path (the `Path.name` of the source), empty for the
filesystem root. -/
def lastSeg (p : List String) : String :=
  p.getLast?.getD ""

/-- Index of the last occurrence of a character in a list. -/
def lastIdxOf (c : Char) : List Char → Option Nat
  | [] => none
  | x :: xs =>
    match lastIdxOf c xs with
    | some i => some (i + 1)
    | none => if x = c then some 0 else none

/-- Extension of a file name; mirrors CPython `PurePath.suffix`: the part
from the last dot, provided that dot is neither the first nor the last
character of the name. -/
def pySuffix (name : String) : String :=
  let cs := name.data
  match lastIdxOf '.' cs with
  | some i => if 0 < i && i + 1 < cs.length then (⟨cs.drop i⟩ : String) else ""
  | none => ""

/-- Join segments with slashes; mirrors `PurePath.as_posix` on a relative
path, where the empty relative path prints as `.`. -/
def posixOf : List String → String
  | [] => "."
  | [s] => s
  | s :: rest => s ++ "/" ++ posixOf rest

/-- The allowed markdown extensions, `MARKDOWN_EXTENSIONS` of
directory_handler.py. -/
def markdownExtensions : List String := [".md", ".markdown"]

/-! ## Error model.

The Python exception values raised by the core, by class and message
(messages are kept without the interpolated concrete path). -/

/-- Exception classes raised by the core, tagged with their message. -/
inductive PyErr where
  | valueError (msg : String)
  | fileNotFoundError (msg : String)
  | fileReadError (msg : String)
  | fileWriteError (msg : String)
  | osError (msg : String)
deriving DecidableEq, Repr

/-- The spec error taxonomy of section 7 of the specification. -/
inductive ErrKind where
  | notFound
  | alreadyExists
  | validationError
  | decodeError
  | ioError
deriving DecidableEq, Repr

/-- Modelled from the spec: the classification of the concrete raised
exceptions into the spec error taxonomy (spec section 7: `NotFound` target
path absent, `AlreadyExists` destination collision, `ValidationError`
malformed or unsafe path or bad argument, `DecodeError` non-text content,
`IOError` lock or OS-level failure).  The message-based discrimination
mirrors the discrimination the source itself performs in
`_status_for_read_error` (server.py). -/
def specErrorKind : PyErr → ErrKind
  | .valueError _ => .validationError
  | .fileNotFoundError _ => .notFound
  | .fileReadError m =>
    if strStartsWith m "File does not exist" || strStartsWith m "Path does not exist" then
      .notFound
    else if strStartsWith m "File is not valid UTF-8" then .decodeError
    else .ioError
  | .fileWriteError m =>
    if strStartsWith m "File already exists" || strStartsWith m "Destination already exists" then
      .alreadyExists
    else if strStartsWith m "Cannot delete directory" then .validationError
    else .ioError
  | .osError _ => .ioError

/-! ## FileHandler model (file_handler.py).

The on-disk state relevant to one handler is the content of its target
path (`none` when absent) together with the staged temporary file. -/

/-- On-disk state seen by one FileHandler: target file content and staged
temporary file content. -/
structure FsState where
  target : Option String
  temp : Option String
deriving DecidableEq, Repr

/-- Fault-injection points of `FileHandler.write`: lock acquisition
(`_acquire_lock`), `tempfile.mkstemp`, staging (`fdopen`/`write`/`fsync`),
and `os.replace`. -/
inductive WriteFault where
  | lockFault
  | mkstempFault
  | stageFault
  | replaceFault
  | noFault
deriving DecidableEq, Repr

namespace FileHandler

/-- `FileHandler._write_temporary_file`: create a temporary file in the
target directory and stage the full content into it.  `mkstemp` failing
raises the OS error uncaught (no temporary file exists yet); a failure
while writing or syncing removes the temporary file (`_safe_remove`) and
raises `FileWriteError`. -/
def write_temporary_file (fault : WriteFault) (content : String) (s : FsState) :
    Except PyErr String × FsState :=
  match fault with
  | .mkstempFault => (.error (.osError "mkstemp failed"), s)
  | .stageFault =>
    (.error (.fileWriteError "Failed to write temporary file for"), { s with temp := none })
  | _ => (.ok content, { s with temp := some content })

/-- `FileHandler.write`: under the exclusive lock, stage the content into
a temporary file, then `os.replace` it onto the target path; a replace
failure removes the temporary file and raises `FileWriteError`.  The
target content is only ever changed by the replace step. -/
def write (fault : WriteFault) (content : String) (s : FsState) :
    Except PyErr Bool × FsState :=
  match fault with
  | .lockFault => (.error (.fileWriteError "Failed to acquire lock"), s)
  | _ =>
    match write_temporary_file fault content s with
    | (.error e, s1) => (.error e, s1)
    | (.ok staged, s1) =>
      match fault with
      | .replaceFault =>
        (.error (.fileWriteError "Failed to replace file"), { s1 with temp := none })
      | _ => (.ok true, { target := some staged, temp := none })

/-- Universal-newline translation performed by `Path.read_text` (it opens
the file in text mode with `newline=None`): every `\r\n` pair and every
lone `\r` in the on-disk content is returned as `\n`. -/
def translateNewlines : List Char → List Char
  | [] => []
  | [c] => if c = '\r' then ['\n'] else [c]
  | c :: c2 :: rest =>
    if c = '\r' then
      if c2 = '\n' then '\n' :: translateNewlines rest
      else '\n' :: translateNewlines (c2 :: rest)
    else c :: translateNewlines (c2 :: rest)

/-- `FileHandler.read`: shared-lock read of the target path via
`Path.read_text(encoding="utf-8")`; missing file raises `FileReadError`
with a does-not-exist message, an injected OS fault raises a generic
`FileReadError`; content written by this program is always valid UTF-8,
so the decode branch is unreachable here — but `read_text` opens the
file with `newline=None`, so the returned text is the stored content
with universal-newline translation applied (the staging writer of
`write` runs on POSIX, where `os.linesep` is `\n`, so writing is the
identity). -/
def read (fault : Bool) (onDisk : Option String) : Except PyErr String :=
  match onDisk with
  | none => .error (.fileReadError "File does not exist")
  | some c =>
    if fault then .error (.fileReadError "Failed to read file")
    else .ok ⟨translateNewlines c.data⟩

/-- Modelled from the spec: `FileHandler.cleanup` (the `release()`
operation of spec section 4.1) is referenced by the repository tests
(test_file_handler.py) and by `DirectoryHandler.cleanup`, but its
definition is absent from the source snapshot.  Per the spec it is a
best-effort removal of the lock sidecar that never raises and is safe to
call repeatedly or when no lock was ever created.  The first component is
the exception escaping the call (always `none`); the second is whether
the lock sidecar still exists afterwards (an unlink fault is suppressed
and leaves the sidecar in place). -/
def cleanup (lockExists : Bool) (unlinkFault : Bool) : Option PyErr × Bool :=
  if lockExists && !unlinkFault then (none, false)
  else (none, lockExists)

end FileHandler

/-! ## Filesystem model for directory operations. -/

/-- A symlink-free filesystem: regular files (absolute segment path and
content) and directories (absolute segment paths). -/
structure FileSystem where
  files : List (List String × String)
  dirs : List (List String)
deriving DecidableEq, Repr

namespace FileSystem

/-- Content of a regular file, `none` when no regular file is at `p`. -/
def fileContent (fs : FileSystem) (p : List String) : Option String :=
  (fs.files.find? (fun e => decide (e.1 = p))).map Prod.snd

/-- `Path.is_file` for the model. -/
def isFile (fs : FileSystem) (p : List String) : Bool :=
  (fs.fileContent p).isSome

/-- Directory test for the model. -/
def isDir (fs : FileSystem) (p : List String) : Bool :=
  fs.dirs.contains p

/-- `Path.exists` for the model. -/
def existsPath (fs : FileSystem) (p : List String) : Bool :=
  fs.isFile p || fs.isDir p

/-- Remove the regular file at `p`; mirrors `Path.unlink`. -/
def removeFile (fs : FileSystem) (p : List String) : FileSystem :=
  { fs with files := fs.files.filter (fun e => decide (e.1 ≠ p)) }

/-- Remap a path under an `os.rename` of `src` to `dst`. -/
def remapPath (src dst p : List String) : List String :=
  if decide (src <+: p) = true then dst ++ p.drop src.length else p

/-- `os.rename`: move the entry at `src` (with its whole subtree) to
`dst`. -/
def renameFs (fs : FileSystem) (src dst : List String) : FileSystem :=
  { files := fs.files.map (fun e => (remapPath src dst e.1, e.2)),
    dirs := fs.dirs.map (remapPath src dst) }

end FileSystem

/-! ## DirectoryHandler model (directory_handler.py).

A handler is identified by its resolved file path; the handler cache
(`_file_handlers`) maps normalized POSIX relative paths to the cached
file path of the handler. -/

/-- The `_file_handlers` cache: normalized relative path, mapped to the
resolved absolute path stored by the cached FileHandler. -/
abbrev Cache := List (String × List String)

/-- Dictionary lookup in the cache (`dict.get`). -/
def cacheLookup (cache : Cache) (key : String) : Option (List String) :=
  (List.find? (fun e => decide (e.1 = key)) cache).map Prod.snd

/-- Dictionary removal (`dict.pop(key, None)`). -/
def cacheRemove (cache : Cache) (key : String) : Cache :=
  List.filter (fun e => decide (e.1 ≠ key)) cache

namespace DirectoryHandler

/-- `DirectoryHandler._resolve_relative_markdown_path`: normalize
backslashes, reject absolute inputs, resolve against the root, re-check
containment on the resolved path, require a markdown extension and an
existing regular file; returns the normalized POSIX relative path and
the resolved absolute path. -/
def resolve_relative_markdown_path (root : List String) (fs : FileSystem)
    (relativePath : String) : Except PyErr (String × List String) :=
  let raw := normalizeSlashes relativePath
  if isAbsolutePath raw then
    .error (.valueError "Path must be relative to the workspace directory.")
  else
    let absPath := resolveSegs root (parseSegs raw)
    if !(decide (root <+: absPath)) then
      .error (.valueError "Path escapes the workspace directory.")
    else if !(markdownExtensions.contains (lowerStr (pySuffix (lastSeg absPath)))) then
      .error (.valueError "Not a markdown file")
    else if !(fs.isFile absPath) then
      .error (.fileNotFoundError "File does not exist")
    else
      .ok (posixOf (absPath.drop root.length), absPath)

/-- `DirectoryHandler._resolve_workspace_path`: the containment-only
variant, without the extension and existence checks. -/
def resolve_workspace_path (root : List String) (relativePath : String) :
    Except PyErr (String × List String) :=
  let raw := normalizeSlashes relativePath
  if isAbsolutePath raw then
    .error (.valueError "Path must be relative to the workspace directory.")
  else
    let absPath := resolveSegs root (parseSegs raw)
    if !(decide (root <+: absPath)) then
      .error (.valueError "Path escapes the workspace directory.")
    else
      .ok (posixOf (absPath.drop root.length), absPath)

/-- `DirectoryHandler.get_file_handler`: resolve and validate the
relative path first, then return the cached handler for the normalized
path if present, else create one for the resolved absolute path and
cache it.  The returned handler is represented by its resolved file
path. -/
def get_file_handler (root : List String) (fs : FileSystem) (cache : Cache)
    (relativePath : String) : Except PyErr (List String × Cache) :=
  match resolve_relative_markdown_path root fs relativePath with
  | .error e => .error e
  | .ok (normalized, absPath) =>
    match cacheLookup cache normalized with
    | some cached => .ok (cached, cache)
    | none => .ok (absPath, (normalized, absPath) :: cache)

/-- `DirectoryHandler.validate_file_path`: the same checks, never
raising. -/
def validate_file_path (root : List String) (fs : FileSystem)
    (relativePath : String) : Bool :=
  match resolve_relative_markdown_path root fs relativePath with
  | .error _ => false
  | .ok _ => true

/-- `DirectoryHandler.list_files`: recursively scan the root
(`rglob("*")`), keep regular files whose extension matches the allowed
set case-insensitively and whose resolved path stays inside the root
(resolution is the identity in the symlink-free model, so remaining
inside the root coincides with being a strict descendant of it), map to
root-relative paths, and sort by the case-insensitive POSIX string. -/
def list_files (root : List String) (fs : FileSystem) (exts : List String) :
    List String :=
  let allowed := exts.map lowerStr
  let eligible := (fs.files.map Prod.fst).filter (fun p =>
    decide (root <+: p) && decide (root.length < p.length) &&
      decide (lowerStr (pySuffix (lastSeg p)) ∈ allowed))
  let rels := eligible.map (fun p => posixOf (p.drop root.length))
  List.insertionSort caseLe rels

/-- `DirectoryHandler.delete_file`: containment-resolve, raise
`FileReadError` (does not exist) for a missing target, `FileWriteError`
(cannot delete directory) for a directory target, otherwise unlink the
file (an injected unlink fault raises `FileWriteError`) and evict the
cache entry for the normalized path.  Error outcomes return the
filesystem and the cache unchanged, exactly as the source mutates
nothing before the unlink. -/
def delete_file (root : List String) (fs : FileSystem) (cache : Cache)
    (relativePath : String) (unlinkFault : Bool) :
    Except PyErr Unit × FileSystem × Cache :=
  match resolve_workspace_path root relativePath with
  | .error e => (.error e, fs, cache)
  | .ok (normalized, absPath) =>
    if !(fs.existsPath absPath) then
      (.error (.fileReadError "File does not exist"), fs, cache)
    else if fs.isDir absPath then
      (.error (.fileWriteError "Cannot delete directory"), fs, cache)
    else if unlinkFault then
      (.error (.fileWriteError "Failed to delete file"), fs, cache)
    else
      (.ok (), fs.removeFile absPath, cacheRemove cache normalized)

/-- `DirectoryHandler.rename_path`: reject an empty new name or one with
path separators, containment-resolve the source, require it to exist,
resolve the destination next to it, require the destination inside the
root and absent, perform the rename (an injected fault raises
`FileWriteError`), and pop the cache entry keyed to the
normalized path of the source itself — and only that entry. -/
def rename_path (root : List String) (fs : FileSystem) (cache : Cache)
    (relativePath newName : String) (renameFault : Bool) :
    Except PyErr (List String) × FileSystem × Cache :=
  if newName = "" || newName.data.contains '/' || newName.data.contains '\\' then
    (.error (.valueError "New name must not be empty or contain path separators."),
      fs, cache)
  else
    match resolve_workspace_path root relativePath with
    | .error e => (.error e, fs, cache)
    | .ok (normalized, source) =>
      if !(fs.existsPath source) then
        (.error (.fileReadError "Path does not exist"), fs, cache)
      else
        let destination := resolveSegs source.dropLast (parseSegs newName)
        if !(decide (root <+: destination)) then
          (.error (.valueError "Destination escapes the workspace directory."), fs, cache)
        else if fs.existsPath destination then
          (.error (.fileWriteError "Destination already exists"), fs, cache)
        else if renameFault then
          (.error (.fileWriteError "Failed to rename path"), fs, cache)
        else
          (.ok destination, fs.renameFs source destination, cacheRemove cache normalized)

/-- `DirectoryHandler.cleanup`: call `FileHandler.cleanup` on every
cached handler, each represented by its lock-sidecar state paired with
an injected unlink fault; the first component is the exception escaping
the loop (there is none, because each per-handler cleanup is
best-effort), the second the resulting sidecar states. -/
def cleanup : List (Bool × Bool) → Option PyErr × List Bool
  | [] => (none, [])
  | h :: rest =>
    match FileHandler.cleanup h.1 h.2 with
    | (some e, b) => (some e, [b])
    | (none, b) =>
      let r := cleanup rest
      (r.1, b :: r.2)

end DirectoryHandler

/-! ## Change-watcher model (server.py, `MarkdownPathEventHandler` and
`_should_ignore_watcher_event`).

Clock readings (`time.monotonic()`) are rationals; the thresholds 0.5
and 0.2 seconds are the literals of the source.  Event paths arrive
already resolved (resolution is the identity in the symlink-free model;
an unresolvable path is discarded by the source before any of the
behavior modelled here). -/

/-- Watcher configuration: single-file mode carries the watched file,
folder mode the workspace root. -/
structure WatcherConfig where
  targetFile : Option (List String)
  rootDirectory : Option (List String)
deriving DecidableEq, Repr

/-- A raw watchdog event: directory flag, source path, and optional
destination path (moves). -/
structure WatchEvent where
  isDirectory : Bool
  srcPath : List String
  destPath : Option (List String)
deriving DecidableEq, Repr

/-- The effective path of an event: `dest_path` when present, else
`src_path`. -/
def WatchEvent.effectivePath (e : WatchEvent) : List String :=
  e.destPath.getD e.srcPath

/-- `MarkdownPathEventHandler._is_relevant_path`: in single-file mode the
path must equal the watched file; in folder mode it must live under the
root and carry a markdown extension. -/
def is_relevant_path (cfg : WatcherConfig) (p : List String) : Bool :=
  match cfg.targetFile with
  | some t => decide (p = t)
  | none =>
    match cfg.rootDirectory with
    | none => false
    | some r =>
      decide (r <+: p) && markdownExtensions.contains (lowerStr (pySuffix (lastSeg p)))

/-- `_should_ignore_watcher_event`: an event is ignored while the last
internal write lies less than 0.5 seconds in the past. -/
def should_ignore_watcher_event (lastInternalWriteAt now : ℚ) : Bool :=
  decide (now - lastInternalWriteAt < 1/2)

/-- `MarkdownPathEventHandler._handle_event`: discard directory events,
irrelevant paths, echo-suppressed events, and events falling inside the
0.2-second debounce window since the last notification; otherwise stamp
the debounce clock and emit the resolved path.  Returns the emitted
notification (if any) and the updated `_last_notified_at`. -/
def handle_event (cfg : WatcherConfig) (lastInternalWriteAt : ℚ)
    (lastNotifiedAt : ℚ) (e : WatchEvent) (now : ℚ) :
    Option (List String) × ℚ :=
  if e.isDirectory then (none, lastNotifiedAt)
  else
    let p := e.effectivePath
    if !(is_relevant_path cfg p) then (none, lastNotifiedAt)
    else if should_ignore_watcher_event lastInternalWriteAt now then (none, lastNotifiedAt)
    else if now - lastNotifiedAt < 1/5 then (none, lastNotifiedAt)
    else (some p, now)

/-- Process a timed sequence of raw events through `_handle_event`,
collecting the notifications emitted. -/
def processEvents (cfg : WatcherConfig) (lastInternalWriteAt : ℚ)
    (lastNotifiedAt : ℚ) : List (WatchEvent × ℚ) → List (List String) × ℚ
  | [] => ([], lastNotifiedAt)
  | (e, t) :: rest =>
    let r := handle_event cfg lastInternalWriteAt lastNotifiedAt e t
    let rr := processEvents cfg lastInternalWriteAt r.2 rest
    (r.1.toList ++ rr.1, rr.2)

/-! ## Websocket hub model (server.py, `WebSocketHub.broadcast_json`).

Subscribers are identified by numbers; a predicate says which sends fail
(a failed send raises `RuntimeError` inside the loop and is caught). -/

/-- The sweep of `broadcast_json`: walk the snapshot in order, attempting
the send to every client; successful deliveries and stale clients are
collected separately, stale removal happening only after the sweep. -/
def broadcastSweep (fails : Nat → Bool) : List Nat → List Nat × List Nat
  | [] => ([], [])
  | c :: rest =>
    let r := broadcastSweep fails rest
    if fails c then (r.1, c :: r.2) else (c :: r.1, r.2)

/-- `WebSocketHub.broadcast_json`: snapshot the registry, sweep it (every
snapshot member is attempted), then discard exactly the stale clients
from the registry.  Returns the new registry, the delivered clients and
the stale clients. -/
def broadcast_json (clients : List Nat) (fails : Nat → Bool) :
    List Nat × List Nat × List Nat :=
  let snapshot := clients
  let r := broadcastSweep fails snapshot
  (r.2.foldl (fun cs sc => cs.filter (fun c => decide (c ≠ sc))) clients, r.1, r.2)

/-! ## External-change broadcast model (server.py,
`_broadcast_external_change`). -/

/-- A JSON payload, as an ordered list of key-value pairs. -/
abbrev Payload := List (String × String)

/-- Key lookup in a payload. -/
def lookupKey (k : String) (pl : Payload) : Option String :=
  (List.find? (fun e => decide (e.1 = k)) pl).map Prod.snd

/-- `_broadcast_external_change` in single-file mode: re-read the watched
file; on any read failure return without broadcasting, otherwise
broadcast a payload with the `type` and `content` keys (and no path
key). -/
def broadcast_external_change_file (readFault : Bool) (onDisk : Option String) :
    Option Payload :=
  match FileHandler.read readFault onDisk with
  | .error _ => none
  | .ok c => some [("type", "file_changed"), ("content", c)]

/-- `_broadcast_external_change` in folder mode: compute the root-relative
path (returning without a broadcast when the changed path is outside the
root), build the base payload with the `type` and `file` keys, and attach
`content` exactly when the relative path validates as an existing
markdown file and the re-read through the (possibly cached) handler
succeeds. -/
def broadcast_external_change_folder (root : List String) (fs : FileSystem)
    (cache : Cache) (readFault : Bool) (changed : List String) :
    Option Payload :=
  if !(decide (root <+: changed)) then none
  else
    let rel := posixOf (changed.drop root.length)
    let base : Payload := [("type", "file_changed"), ("file", rel)]
    if DirectoryHandler.validate_file_path root fs rel then
      match DirectoryHandler.get_file_handler root fs cache rel with
      | .error _ => some base
      | .ok (fp, _) =>
        match FileHandler.read readFault (fs.fileContent fp) with
        | .error _ => some base
        | .ok c => some (base ++ [("content", c)])
    else some base

/-- Observation of a write outcome: the spec error kind of the raised
exception, or `none` for a successful write. -/
def writeErrorKind (r : Except PyErr Bool) : Option ErrKind :=
  match r with
  | .error e => some (specErrorKind e)
  | .ok _ => none

/-- Observation used to state when folder-mode broadcast attaches content:
the changed file could be re-read successfully through the (possibly
cached) handler obtained for the relative path. -/
def contentReadOk (root : List String) (fs : FileSystem) (cache : Cache)
    (fault : Bool) (rel : String) : Bool :=
  match DirectoryHandler.get_file_handler root fs cache rel with
  | .error _ => false
  | .ok (fp, _) => (FileHandler.read fault (fs.fileContent fp)).isOk

/-! ## Helper lemmas. -/

theorem charListLe_total : ∀ a b : List Char, charListLe a b = true ∨ charListLe b a = true := by
  intro a
  induction a with
  | nil => intro b; left; rfl
  | cons x xs ih =>
    intro b
    cases b with
    | nil => right; rfl
    | cons y ys =>
      rcases Nat.lt_trichotomy x.toNat y.toNat with h | h | h
      · left; simp [charListLe, h]
      · have h1 : ¬ x.toNat < y.toNat := by omega
        have h2 : ¬ y.toNat < x.toNat := by omega
        rcases ih ys with hr | hr
        · left; simp [charListLe, h1, h2, hr]
        · right; simp [charListLe, h1, h2, hr]
      · right; simp [charListLe, h]

theorem charListLe_trans : ∀ a b c : List Char,
    charListLe a b = true → charListLe b c = true → charListLe a c = true := by
  intro a
  induction a with
  | nil => intro b c _ _; rfl
  | cons x xs ih =>
    intro b c hab hbc
    cases b with
    | nil => exact Bool.noConfusion (show false = true from hab)
    | cons y ys =>
      cases c with
      | nil => exact Bool.noConfusion (show false = true from hbc)
      | cons z zs =>
        simp only [charListLe] at hab hbc ⊢
        rcases Nat.lt_trichotomy x.toNat y.toNat with hxy | hxy | hxy
        · have hzy : ¬ z.toNat < y.toNat := by
            intro hzy
            have h1 : ¬ y.toNat < z.toNat := by omega
            rw [if_neg h1, if_pos hzy] at hbc
            exact Bool.noConfusion hbc
          have hxz : x.toNat < z.toNat := by omega
          rw [if_pos hxz]
        · have h1 : ¬ x.toNat < y.toNat := by omega
          have h2 : ¬ y.toNat < x.toNat := by omega
          rw [if_neg h1, if_neg h2] at hab
          rcases Nat.lt_trichotomy y.toNat z.toNat with hyz | hyz | hyz
          · have hxz : x.toNat < z.toNat := by omega
            rw [if_pos hxz]
          · have h3 : ¬ y.toNat < z.toNat := by omega
            have h4 : ¬ z.toNat < y.toNat := by omega
            rw [if_neg h3, if_neg h4] at hbc
            have h5 : ¬ x.toNat < z.toNat := by omega
            have h6 : ¬ z.toNat < x.toNat := by omega
            rw [if_neg h5, if_neg h6]
            exact ih ys zs hab hbc
          · have h3 : ¬ y.toNat < z.toNat := by omega
            rw [if_neg h3, if_pos hyz] at hbc
            exact Bool.noConfusion hbc
        · have h1 : ¬ x.toNat < y.toNat := by omega
          rw [if_neg h1, if_pos hxy] at hab
          exact Bool.noConfusion hab

theorem caseLe_total (a b : String) : caseLe a b ∨ caseLe b a :=
  charListLe_total (a.data.map lowerChar) (b.data.map lowerChar)

theorem caseLe_trans (a b c : String) (hab : caseLe a b) (hbc : caseLe b c) : caseLe a c :=
  charListLe_trans (a.data.map lowerChar) (b.data.map lowerChar) (c.data.map lowerChar) hab hbc

theorem cacheLookup_remove_ne (cache : Cache) (norm k : String) (h : k ≠ norm) :
    cacheLookup (cacheRemove cache norm) k = cacheLookup cache k := by
  induction cache with
  | nil => rfl
  | cons e rest ih =>
    obtain ⟨ek, ev⟩ := e
    by_cases hek : ek = k <;> by_cases hen : ek = norm <;>
      simp_all [cacheRemove, cacheLookup, List.filter_cons, List.find?_cons]

theorem broadcastSweep_eq (fails : Nat → Bool) (l : List Nat) :
    broadcastSweep fails l =
      (l.filter (fun c => !(fails c)), l.filter (fun c => fails c)) := by
  induction l with
  | nil => rfl
  | cons c rest ih =>
    cases hc : fails c <;> simp [broadcastSweep, ih, hc]

theorem foldl_discard (l init : List Nat) :
    l.foldl (fun cs sc => cs.filter (fun c => decide (c ≠ sc))) init
      = init.filter (fun c => decide (c ∉ l)) := by
  induction l generalizing init with
  | nil => simp
  | cons sc rest ih =>
    rw [List.foldl_cons, ih, List.filter_filter]
    apply List.filter_congr
    intro c _
    by_cases h1 : c = sc <;> by_cases h2 : c ∈ rest <;> simp [h1, h2]

theorem lookupKey_cons_eq (k v : String) (pl : Payload) :
    lookupKey k ((k, v) :: pl) = some v := by
  simp [lookupKey, List.find?]

theorem lookupKey_cons_ne (k k' v : String) (pl : Payload) (h : k' ≠ k) :
    lookupKey k ((k', v) :: pl) = lookupKey k pl := by
  simp [lookupKey, List.find?, h]

/-! ## Claim C1. -/

/-- C1: for every `FileStore.write(content)` call, a failure at any point
before the final rename — lock acquisition, temporary-file creation,
staging, or the replace itself — raises an IOError-class error, leaves no
temporary file behind, and leaves the target content exactly as it was;
the target content is mutated only by the single atomic rename of the
fault-free run, which installs the staged content. -/
theorem write_staging_failure_atomic (fault : WriteFault) (content : String)
    (tgt : Option String) (h : fault ≠ WriteFault.noFault) :
    writeErrorKind (FileHandler.write fault content ⟨tgt, none⟩).1 = some ErrKind.ioError ∧
    (FileHandler.write fault content ⟨tgt, none⟩).2 = ⟨tgt, none⟩ ∧
    FileHandler.write WriteFault.noFault content ⟨tgt, none⟩ =
      (.ok true, ⟨some content, none⟩) := by
  cases fault with
  | lockFault => exact ⟨rfl, rfl, rfl⟩
  | mkstempFault => exact ⟨rfl, rfl, rfl⟩
  | stageFault => exact ⟨rfl, rfl, rfl⟩
  | replaceFault => exact ⟨rfl, rfl, rfl⟩
  | noFault => exact absurd rfl h

/-- C1 witness: instantiation at the staging fault with concrete old and
new content. -/
theorem write_staging_failure_atomic_witness :
    writeErrorKind (FileHandler.write WriteFault.stageFault "new" ⟨some "old", none⟩).1 =
      some ErrKind.ioError ∧
    (FileHandler.write WriteFault.stageFault "new" ⟨some "old", none⟩).2 = ⟨some "old", none⟩ ∧
    FileHandler.write WriteFault.noFault "new" ⟨some "old", none⟩ =
      (.ok true, ⟨some "new", none⟩) :=
  write_staging_failure_atomic WriteFault.stageFault "new" (some "old") (by decide)

/-! ## Claim C3. -/

theorem translateNewlines_cons_ne_cr (c : Char) (rest : List Char) (hc : c ≠ '\r') :
    FileHandler.translateNewlines (c :: rest) = c :: FileHandler.translateNewlines rest := by
  rcases rest with _ | ⟨c2, rest2⟩ <;>
    simp [FileHandler.translateNewlines, hc]

theorem translateNewlines_of_no_cr (cs : List Char) (h : '\r' ∉ cs) :
    FileHandler.translateNewlines cs = cs := by
  induction cs with
  | nil => rfl
  | cons c rest ih =>
    have hc : c ≠ '\r' := by
      rintro rfl
      exact h (List.mem_cons_self _ _)
    have hr : '\r' ∉ rest := fun hm => h (List.mem_cons_of_mem c hm)
    rw [translateNewlines_cons_ne_cr c rest hc, ih hr]

/-- C3 (amended): a successful `write(X)` followed by `read()` on the
same FileStore returns `X` with universal-newline translation applied —
`Path.read_text` opens the file with `newline=None`, so every `\r\n`
pair and every lone `\r` of the stored content comes back as `\n`; in
particular the round trip returns exactly `X` whenever `X` contains no
carriage return (which includes the empty string and arbitrary
carriage-return-free multi-megabyte content). -/
theorem write_read_round_trip (X : String) (s : FsState) (hcr : '\r' ∉ X.data) :
    (FileHandler.write WriteFault.noFault X s).1 = .ok true ∧
    FileHandler.read false ((FileHandler.write WriteFault.noFault X s).2).target =
      .ok ⟨FileHandler.translateNewlines X.data⟩ ∧
    FileHandler.read false ((FileHandler.write WriteFault.noFault X s).2).target = .ok X := by
  refine ⟨rfl, rfl, ?_⟩
  show Except.ok (⟨FileHandler.translateNewlines X.data⟩ : String) = Except.ok X
  rw [translateNewlines_of_no_cr X.data hcr]

/-- C3 counterexample: the round trip is not the identity on content
containing carriage returns: a successful write of the UTF-8 string
`a\r\nb` reads back as `a\nb`, which differs from what was written. -/
theorem write_read_round_trip_counterexample :
    (FileHandler.write WriteFault.noFault "a\r\nb" ⟨none, none⟩).1 = .ok true ∧
    FileHandler.read false
        ((FileHandler.write WriteFault.noFault "a\r\nb" ⟨none, none⟩).2).target =
      .ok "a\nb" ∧
    ("a\nb" : String) ≠ "a\r\nb" :=
  ⟨rfl, rfl, by decide⟩

/-- C3 witness: the round trip at the carriage-return-free content `ab`. -/
theorem write_read_round_trip_witness :
    (FileHandler.write WriteFault.noFault "ab" ⟨none, none⟩).1 = .ok true ∧
    FileHandler.read false ((FileHandler.write WriteFault.noFault "ab" ⟨none, none⟩).2).target =
      .ok ⟨FileHandler.translateNewlines ("ab" : String).data⟩ ∧
    FileHandler.read false ((FileHandler.write WriteFault.noFault "ab" ⟨none, none⟩).2).target =
      .ok "ab" :=
  write_read_round_trip "ab" ⟨none, none⟩ (by decide)

/-! ## Claim C6. -/

/-- C6: `release()` (surfaced as `cleanup` on the handlers) never raises:
it is safe whatever the lock-sidecar state, safe under an injected unlink
fault, safe to call twice in a row, and the workspace-level cleanup that
invokes it for every cached handler never raises either. -/
theorem cleanup_never_raises (lock fault fault2 : Bool)
    (handlers : List (Bool × Bool)) :
    (FileHandler.cleanup lock fault).1 = none ∧
    (FileHandler.cleanup (FileHandler.cleanup lock fault).2 fault2).1 = none ∧
    (DirectoryHandler.cleanup handlers).1 = none := by
  refine ⟨?_, ?_, ?_⟩
  · cases lock <;> cases fault <;> rfl
  · cases lock <;> cases fault <;> cases fault2 <;> rfl
  · induction handlers with
    | nil => rfl
    | cons hh rest ih =>
      obtain ⟨a, b⟩ := hh
      cases a <;> cases b <;>
        simpa [DirectoryHandler.cleanup, FileHandler.cleanup] using ih

/-! ## Claim C9. -/

/-- C9: `broadcast(payload)` attempts the send for every subscriber in
the snapshot taken at the start (each one lands in the delivered list or
in the stale list), the delivered and stale lists are exactly the
non-failing and failing subscribers of the snapshot, the registry
afterwards is the snapshot minus exactly the failing subscribers
(removed after the sweep), and a non-failing subscriber always receives
the delivery regardless of which other subscribers fail. -/
theorem broadcast_attempts_all_and_prunes_stale (clients : List Nat)
    (fails : Nat → Bool) (c d : Nat)
    (hc : c ∈ clients) (hd : d ∈ clients) (hdf : fails d = false) :
    (broadcast_json clients fails).2.1 = clients.filter (fun x => !(fails x)) ∧
    (broadcast_json clients fails).2.2 = clients.filter (fun x => fails x) ∧
    (broadcast_json clients fails).1 = clients.filter (fun x => !(fails x)) ∧
    (c ∈ (broadcast_json clients fails).2.1 ∨ c ∈ (broadcast_json clients fails).2.2) ∧
    d ∈ (broadcast_json clients fails).2.1 := by
  have hsweep := broadcastSweep_eq fails clients
  have h21 : (broadcast_json clients fails).2.1 = clients.filter (fun x => !(fails x)) := by
    simp [broadcast_json, hsweep]
  have h22 : (broadcast_json clients fails).2.2 = clients.filter (fun x => fails x) := by
    simp [broadcast_json, hsweep]
  have h1 : (broadcast_json clients fails).1 = clients.filter (fun x => !(fails x)) := by
    simp only [broadcast_json, hsweep]
    rw [foldl_discard]
    apply List.filter_congr
    intro x hx
    by_cases hfx : fails x <;> simp [hfx, hx]
  refine ⟨h21, h22, h1, ?_, ?_⟩
  · by_cases hfc : fails c
    · right; rw [h22]; simp [List.mem_filter, hc, hfc]
    · left; rw [h21]; simp [List.mem_filter, hc, hfc]
  · rw [h21]; simp [List.mem_filter, hd, hdf]

/-- C9 witness: three subscribers of which the middle one fails. -/
theorem broadcast_attempts_all_and_prunes_stale_witness :
    (broadcast_json [1, 2, 3] (fun n => decide (n = 2))).2.1 =
      [1, 2, 3].filter (fun x => !(decide (x = 2))) ∧
    (broadcast_json [1, 2, 3] (fun n => decide (n = 2))).2.2 =
      [1, 2, 3].filter (fun x => decide (x = 2)) ∧
    (broadcast_json [1, 2, 3] (fun n => decide (n = 2))).1 =
      [1, 2, 3].filter (fun x => !(decide (x = 2))) ∧
    (2 ∈ (broadcast_json [1, 2, 3] (fun n => decide (n = 2))).2.1 ∨
      2 ∈ (broadcast_json [1, 2, 3] (fun n => decide (n = 2))).2.2) ∧
    3 ∈ (broadcast_json [1, 2, 3] (fun n => decide (n = 2))).2.1 :=
  broadcast_attempts_all_and_prunes_stale [1, 2, 3] (fun n => decide (n = 2)) 2 3
    (by decide) (by decide) (by decide)

/-! ## Claim C4. -/

theorem handle_event_suppressed (cfg : WatcherConfig) (e : WatchEvent)
    (lw ln now : ℚ) (hdir : e.isDirectory = false)
    (hrel : is_relevant_path cfg e.effectivePath = true)
    (hsup : now - lw < 1/2) :
    handle_event cfg lw ln e now = (none, ln) := by
  have hs : should_ignore_watcher_event lw now = true := decide_eq_true hsup
  unfold handle_event
  rw [hdir]
  simp only [Bool.false_eq_true, if_false, hrel, Bool.not_true, hs]
  rw [if_pos trivial]

theorem handle_event_debounced (cfg : WatcherConfig) (e : WatchEvent)
    (lw ln now : ℚ) (hdir : e.isDirectory = false)
    (hrel : is_relevant_path cfg e.effectivePath = true)
    (hsup : ¬ (now - lw < 1/2)) (hdeb : now - ln < 1/5) :
    handle_event cfg lw ln e now = (none, ln) := by
  have hs : should_ignore_watcher_event lw now = false := decide_eq_false hsup
  unfold handle_event
  rw [hdir]
  simp only [Bool.false_eq_true, if_false, hrel, Bool.not_true, hs]
  rw [if_pos hdeb]

theorem handle_event_notifies (cfg : WatcherConfig) (e : WatchEvent)
    (lw ln now : ℚ) (hdir : e.isDirectory = false)
    (hrel : is_relevant_path cfg e.effectivePath = true)
    (hsup : ¬ (now - lw < 1/2)) (hdeb : ¬ (now - ln < 1/5)) :
    handle_event cfg lw ln e now = (some e.effectivePath, now) := by
  have hs : should_ignore_watcher_event lw now = false := decide_eq_false hsup
  unfold handle_event
  rw [hdir]
  simp only [Bool.false_eq_true, if_false, hrel, Bool.not_true, hs]
  rw [if_neg hdeb]

/-- C4: a raw change event for the watched path arriving strictly within
0.5 seconds of the last internal write produces no notification; the same
event arriving 0.6 seconds after the write produces exactly one
notification (given the debounce clock is not fresher than 0.2 seconds
before that instant); and three raw events for the same relevant path
within 0.1 seconds of each other — the first outside both the suppression
and debounce windows — produce exactly one notification, because at most
one notification is emitted per 0.2-second debounce window. -/
theorem watcher_suppression_and_debounce (cfg : WatcherConfig) (e : WatchEvent)
    (lw ln t t1 t2 t3 : ℚ)
    (hdir : e.isDirectory = false)
    (hrel : is_relevant_path cfg e.effectivePath = true)
    (hsup : t - lw < 1/2)
    (hln : ln ≤ lw + 2/5)
    (h1w : lw + 1/2 ≤ t1) (h1n : ln + 1/5 ≤ t1)
    (h12 : t1 ≤ t2) (h23 : t2 ≤ t3) (h31 : t3 - t1 < 1/10) :
    (handle_event cfg lw ln e t).1 = none ∧
    (handle_event cfg lw ln e (lw + 3/5)).1 = some e.effectivePath ∧
    (processEvents cfg lw ln [(e, t1), (e, t2), (e, t3)]).1.length = 1 := by
  refine ⟨?_, ?_, ?_⟩
  · rw [handle_event_suppressed cfg e lw ln t hdir hrel hsup]
  · rw [handle_event_notifies cfg e lw ln (lw + 3/5) hdir hrel
      (by linarith) (by linarith)]
  · have e1 : handle_event cfg lw ln e t1 = (some e.effectivePath, t1) :=
      handle_event_notifies cfg e lw ln t1 hdir hrel (by linarith) (by linarith)
    have e2 : handle_event cfg lw t1 e t2 = (none, t1) :=
      handle_event_debounced cfg e lw t1 t2 hdir hrel (by linarith) (by linarith)
    have e3 : handle_event cfg lw t1 e t3 = (none, t1) :=
      handle_event_debounced cfg e lw t1 t3 hdir hrel (by linarith) (by linarith)
    simp [processEvents, e1, e2, e3]

/-! ## Claim C2. -/

theorem not_prefix_dropLast_append (root : List String) (x : String)
    (hroot : root ≠ []) (hlast : root.getLast? ≠ some x) :
    ¬ (root <+: root.dropLast ++ [x]) := by
  intro hp
  have hlen : root.length = (root.dropLast ++ [x]).length := by
    have hpos : 0 < root.length := List.length_pos.mpr hroot
    simp [List.length_dropLast]
    omega
  have heq : root = root.dropLast ++ [x] := List.IsPrefix.eq_of_length hp hlen
  have hgl : root.getLast? = some x := by
    rw [heq]
    exact List.getLast?_concat _
  exact hlast hgl

theorem resolve_dotdot_outside (root : List String) :
    resolveSegs root (parseSegs (normalizeSlashes "../outside.md")) =
      root.dropLast ++ ["outside.md"] := by
  have hp : parseSegs (normalizeSlashes "../outside.md") = ["..", "outside.md"] := by decide
  rw [hp]
  have hne : ("outside.md" : String) ≠ ".." := by decide
  simp [resolveSegs, hne]

theorem resolve_sub_roundabout (root : List String) :
    resolveSegs root (parseSegs (normalizeSlashes "sub/../sub/file.md")) =
      root ++ ["sub", "file.md"] := by
  have hp : parseSegs (normalizeSlashes "sub/../sub/file.md") =
      ["sub", "..", "sub", "file.md"] := by decide
  rw [hp]
  have h1 : ("sub" : String) ≠ ".." := by decide
  have h2 : ("file.md" : String) ≠ ".." := by decide
  simp [resolveSegs, h1, h2, List.dropLast_concat, List.append_assoc]

/-- C2 (amended): any absolute input fails with `ValidationError`
(`/etc/passwd` is an instance of `pAbs`); any relative input whose
resolved form is not a descendant of (or equal to) the resolved root
fails with `ValidationError`, the containment check being performed on
the resolved path; `getStore("../outside.md")` fails with
`ValidationError` for every workspace root other than the filesystem root
itself and not itself named `outside.md` (for the root `/` the input
resolves to `/outside.md`, which is inside the root, so containment does
not reject it — see the counterexample); and `getStore("sub/../sub/file.md")`
normalizes to `sub/file.md` and succeeds whenever `sub/file.md` exists as
a markdown file inside the root. -/
theorem path_containment (root : List String) (fs : FileSystem) (cache : Cache)
    (pAbs pEsc : String)
    (hAbs : isAbsolutePath (normalizeSlashes pAbs) = true)
    (hEscA : isAbsolutePath (normalizeSlashes pEsc) = false)
    (hEsc : ¬ (root <+: resolveSegs root (parseSegs (normalizeSlashes pEsc))))
    (hroot : root ≠ []) (hlast : root.getLast? ≠ some "outside.md")
    (hsub : fs.isFile (root ++ ["sub", "file.md"]) = true) :
    DirectoryHandler.get_file_handler root fs cache pAbs =
      .error (.valueError "Path must be relative to the workspace directory.") ∧
    DirectoryHandler.get_file_handler root fs cache pEsc =
      .error (.valueError "Path escapes the workspace directory.") ∧
    DirectoryHandler.get_file_handler root fs cache "../outside.md" =
      .error (.valueError "Path escapes the workspace directory.") ∧
    specErrorKind (.valueError "Path escapes the workspace directory.") =
      ErrKind.validationError ∧
    DirectoryHandler.resolve_relative_markdown_path root fs "sub/../sub/file.md" =
      .ok ("sub/file.md", root ++ ["sub", "file.md"]) ∧
    (DirectoryHandler.get_file_handler root fs cache "sub/../sub/file.md").isOk = true := by
  have hlast2 : lastSeg (root ++ ["sub", "file.md"]) = "file.md" := by
    unfold lastSeg
    rw [show root ++ ["sub", "file.md"] = (root ++ ["sub"]) ++ ["file.md"] from by
      simp [List.append_assoc]]
    rw [List.getLast?_concat]
    rfl
  have hsuf : markdownExtensions.contains
      (lowerStr (pySuffix (lastSeg (root ++ ["sub", "file.md"])))) = true := by
    rw [hlast2]; decide
  have hpre : decide (root <+: root ++ ["sub", "file.md"]) = true :=
    decide_eq_true (List.prefix_append root _)
  have hpos : posixOf ["sub", "file.md"] = "sub/file.md" := by decide
  have hres : DirectoryHandler.resolve_relative_markdown_path root fs "sub/../sub/file.md" =
      .ok ("sub/file.md", root ++ ["sub", "file.md"]) := by
    simp only [DirectoryHandler.resolve_relative_markdown_path,
      show isAbsolutePath (normalizeSlashes "sub/../sub/file.md") = false from by decide,
      resolve_sub_roundabout root, hpre, hsuf, hsub, List.drop_left, hpos,
      Bool.not_true, Bool.false_eq_true, if_false]
  refine ⟨?_, ?_, ?_, by decide, hres, ?_⟩
  · simp [DirectoryHandler.get_file_handler,
      DirectoryHandler.resolve_relative_markdown_path, hAbs]
  · simp [DirectoryHandler.get_file_handler,
      DirectoryHandler.resolve_relative_markdown_path, hEscA, decide_eq_false hEsc]
  · simp [DirectoryHandler.get_file_handler,
      DirectoryHandler.resolve_relative_markdown_path,
      show isAbsolutePath (normalizeSlashes "../outside.md") = false from by decide,
      resolve_dotdot_outside root,
      decide_eq_false (not_prefix_dropLast_append root "outside.md" hroot hlast)]
  · unfold DirectoryHandler.get_file_handler
    rw [hres]
    rcases hcl : cacheLookup cache "sub/file.md" with _ | cached <;>
      simp [hcl, Except.isOk, Except.toBool]

/-- C2 counterexample: with the workspace root at the filesystem root `/`,
the input `../outside.md` resolves to `/outside.md`, which is inside the
root, so `getStore` does not fail with `ValidationError` — it succeeds
when the file exists (and caches a handler for it), refuting the claim
that it fails for every workspace root. -/
theorem path_containment_counterexample :
    DirectoryHandler.get_file_handler [] ⟨[(["outside.md"], "x")], [[]]⟩ []
        "../outside.md" =
      .ok (["outside.md"], [("outside.md", ["outside.md"])]) := by rfl

/-- C2 witness: a two-segment root, the absolute input `/etc/passwd`, the
escaping input `../../..`, and an existing `sub/file.md`. -/
theorem path_containment_witness :
    DirectoryHandler.get_file_handler ["home", "ws"]
        ⟨[(["home", "ws", "sub", "file.md"], "c")], [["home", "ws"]]⟩ [] "/etc/passwd" =
      .error (.valueError "Path must be relative to the workspace directory.") ∧
    DirectoryHandler.get_file_handler ["home", "ws"]
        ⟨[(["home", "ws", "sub", "file.md"], "c")], [["home", "ws"]]⟩ [] "../../.." =
      .error (.valueError "Path escapes the workspace directory.") ∧
    DirectoryHandler.get_file_handler ["home", "ws"]
        ⟨[(["home", "ws", "sub", "file.md"], "c")], [["home", "ws"]]⟩ [] "../outside.md" =
      .error (.valueError "Path escapes the workspace directory.") ∧
    specErrorKind (.valueError "Path escapes the workspace directory.") =
      ErrKind.validationError ∧
    DirectoryHandler.resolve_relative_markdown_path ["home", "ws"]
        ⟨[(["home", "ws", "sub", "file.md"], "c")], [["home", "ws"]]⟩ "sub/../sub/file.md" =
      .ok ("sub/file.md", ["home", "ws"] ++ ["sub", "file.md"]) ∧
    (DirectoryHandler.get_file_handler ["home", "ws"]
        ⟨[(["home", "ws", "sub", "file.md"], "c")], [["home", "ws"]]⟩ []
        "sub/../sub/file.md").isOk = true :=
  path_containment ["home", "ws"] ⟨[(["home", "ws", "sub", "file.md"], "c")], [["home", "ws"]]⟩
    [] "/etc/passwd" "../../.." (by decide) (by decide) (by decide) (by decide) (by decide)
    (by decide)

/-- C4 witness: the watched file `/ws/doc.md`, last internal write at 0,
debounce clock at -1; a raw event at 0.25 is suppressed, the event at 0.6
notifies, and three events at 1, 1.05, 1.09 yield one notification. -/
theorem watcher_suppression_and_debounce_witness :
    (handle_event ⟨some ["ws", "doc.md"], none⟩ 0 (-1)
        ⟨false, ["ws", "doc.md"], none⟩ (1/4)).1 = none ∧
    (handle_event ⟨some ["ws", "doc.md"], none⟩ 0 (-1)
        ⟨false, ["ws", "doc.md"], none⟩ (0 + 3/5)).1 =
      some (WatchEvent.effectivePath ⟨false, ["ws", "doc.md"], none⟩) ∧
    (processEvents ⟨some ["ws", "doc.md"], none⟩ 0 (-1)
        [(⟨false, ["ws", "doc.md"], none⟩, 1), (⟨false, ["ws", "doc.md"], none⟩, 21/20),
          (⟨false, ["ws", "doc.md"], none⟩, 109/100)]).1.length = 1 :=
  watcher_suppression_and_debounce ⟨some ["ws", "doc.md"], none⟩
    ⟨false, ["ws", "doc.md"], none⟩ 0 (-1) (1/4) 1 (21/20) (109/100)
    rfl (by decide) (by norm_num) (by norm_num) (by norm_num) (by norm_num)
    (by norm_num) (by norm_num) (by norm_num)

/-! ## Claim C7. -/

/-- C7 (amended): `list_files` returns exactly the regular files whose
extension matches the allowed set case-insensitively and whose (resolved)
path is a strict descendant of the root, as relative POSIX paths, sorted
lexicographically by the case-insensitive relative path; in particular a
root containing `docs/guide.md` and `README.md` yields
`["docs/guide.md", "README.md"]` (the lower-cased key `docs/guide.md`
sorts before `readme.md`). -/
theorem list_files_sorted_and_complete (root : List String) (fs : FileSystem)
    (exts : List String) :
    List.Sorted caseLe (DirectoryHandler.list_files root fs exts) ∧
    (DirectoryHandler.list_files root fs exts).Perm
      (((fs.files.map Prod.fst).filter (fun p =>
          decide (root <+: p) && decide (root.length < p.length) &&
            decide (lowerStr (pySuffix (lastSeg p)) ∈ exts.map lowerStr))).map
        (fun p => posixOf (p.drop root.length))) ∧
    DirectoryHandler.list_files ["ws"]
        ⟨[(["ws", "docs", "guide.md"], "g"), (["ws", "README.md"], "r")],
          [["ws"], ["ws", "docs"]]⟩ markdownExtensions =
      ["docs/guide.md", "README.md"] := by
  refine ⟨?_, ?_, by decide⟩
  · exact @List.sorted_insertionSort String caseLe _ ⟨caseLe_total⟩ ⟨caseLe_trans⟩ _
  · exact List.perm_insertionSort caseLe _

/-- C7 counterexample: the claim asserts the scenario output
`["README.md", "docs/guide.md"]`, but the case-insensitive lexicographic
sort the code performs puts `docs/guide.md` first (the repository test
`test_list_files_recursive_returns_relative_markdown_paths` asserts the
same order). -/
theorem list_files_example_order_counterexample :
    DirectoryHandler.list_files ["ws"]
        ⟨[(["ws", "docs", "guide.md"], "g"), (["ws", "README.md"], "r")],
          [["ws"], ["ws", "docs"]]⟩ markdownExtensions ≠
      ["README.md", "docs/guide.md"] := by decide

/-! ## Claim C5. -/

/-- C5 (amended): every outbound change notification has `type` equal to
`file_changed` and never carries a `path` key.  In single-file mode the
payload carries only `type` and `content`: `content` is always present
and equals the re-read content, because an unreadable file produces no
broadcast at all.  In folder mode the path key is named `file` (the
root-relative POSIX path), and `content` is included exactly when the
relative path validates as an existing markdown file and the re-read
through the handler succeeds, omitted otherwise. -/
theorem broadcast_payload_shape
    (fault : Bool) (onDisk : Option String) (pl : Payload)
    (hfile : broadcast_external_change_file fault onDisk = some pl)
    (root : List String) (fs : FileSystem) (cache : Cache) (fault2 : Bool)
    (changed : List String) (pl2 : Payload)
    (hfolder : broadcast_external_change_folder root fs cache fault2 changed = some pl2) :
    lookupKey "type" pl = some "file_changed" ∧
    lookupKey "path" pl = none ∧
    lookupKey "content" pl = (FileHandler.read fault onDisk).toOption ∧
    (broadcast_external_change_file fault onDisk).isSome =
      (FileHandler.read fault onDisk).isOk ∧
    lookupKey "type" pl2 = some "file_changed" ∧
    lookupKey "file" pl2 = some (posixOf (changed.drop root.length)) ∧
    lookupKey "path" pl2 = none ∧
    (lookupKey "content" pl2).isSome =
      (DirectoryHandler.validate_file_path root fs (posixOf (changed.drop root.length)) &&
        contentReadOk root fs cache fault2 (posixOf (changed.drop root.length))) := by
  have hfilepart : lookupKey "type" pl = some "file_changed" ∧
      lookupKey "path" pl = none ∧
      lookupKey "content" pl = (FileHandler.read fault onDisk).toOption ∧
      (broadcast_external_change_file fault onDisk).isSome =
        (FileHandler.read fault onDisk).isOk := by
    cases hr : FileHandler.read fault onDisk with
    | error e =>
      rw [broadcast_external_change_file, hr] at hfile
      exact Option.noConfusion hfile
    | ok c =>
      rw [broadcast_external_change_file, hr] at hfile
      injection hfile with h
      subst h
      refine ⟨rfl, rfl, ?_, ?_⟩
      · rfl
      · rw [broadcast_external_change_file, hr]
        rfl
  refine ⟨hfilepart.1, hfilepart.2.1, hfilepart.2.2.1, hfilepart.2.2.2, ?_⟩
  by_cases hpre : root <+: changed
  · simp only [broadcast_external_change_folder, decide_eq_true hpre, Bool.not_true,
      Bool.false_eq_true, if_false] at hfolder
    cases hv : DirectoryHandler.validate_file_path root fs
        (posixOf (changed.drop root.length)) with
    | false =>
      simp only [hv, Bool.false_eq_true, if_false] at hfolder
      injection hfolder with h
      subst h
      exact ⟨rfl, rfl, rfl, rfl⟩
    | true =>
      simp only [hv, if_true] at hfolder
      cases hg : DirectoryHandler.get_file_handler root fs cache
          (posixOf (changed.drop root.length)) with
      | error e =>
        simp only [hg] at hfolder
        injection hfolder with h
        subst h
        refine ⟨rfl, rfl, rfl, ?_⟩
        simp only [contentReadOk, hg]
        rfl
      | ok pr =>
        obtain ⟨fp, cache2⟩ := pr
        simp only [hg] at hfolder
        cases hr2 : FileHandler.read fault2 (fs.fileContent fp) with
        | error e2 =>
          simp only [hr2] at hfolder
          injection hfolder with h
          subst h
          refine ⟨rfl, rfl, rfl, ?_⟩
          simp only [contentReadOk, hg, hr2]
          rfl
        | ok c2 =>
          simp only [hr2] at hfolder
          injection hfolder with h
          subst h
          refine ⟨rfl, rfl, rfl, ?_⟩
          simp only [contentReadOk, hg, hr2]
          rfl
  · simp only [broadcast_external_change_folder, decide_eq_false hpre, Bool.not_false,
      eq_self_iff_true, if_true] at hfolder
    exact Option.noConfusion hfolder

/-- C5 counterexample: a single-file-mode notification for a readable
file is `{type, content}` with no `path` key at all, refuting the claim
that every outbound notification contains a `path` key. -/
theorem broadcast_payload_counterexample :
    broadcast_external_change_file false (some "hello") =
      some [("type", "file_changed"), ("content", "hello")] ∧
    lookupKey "path" [("type", "file_changed"), ("content", "hello")] = none := by
  exact ⟨rfl, rfl⟩

/-- C5 witness: file mode reading `h`; folder mode for `/ws/a.md`
containing `c`. -/
theorem broadcast_payload_shape_witness :
    lookupKey "type" [("type", "file_changed"), ("content", "h")] = some "file_changed" ∧
    lookupKey "path" [("type", "file_changed"), ("content", "h")] = none ∧
    lookupKey "content" [("type", "file_changed"), ("content", "h")] =
      (FileHandler.read false (some "h")).toOption ∧
    (broadcast_external_change_file false (some "h")).isSome =
      (FileHandler.read false (some "h")).isOk ∧
    lookupKey "type" [("type", "file_changed"), ("file", "a.md"), ("content", "c")] =
      some "file_changed" ∧
    lookupKey "file" [("type", "file_changed"), ("file", "a.md"), ("content", "c")] =
      some (posixOf ((["ws", "a.md"] : List String).drop (["ws"] : List String).length)) ∧
    lookupKey "path" [("type", "file_changed"), ("file", "a.md"), ("content", "c")] = none ∧
    (lookupKey "content"
        [("type", "file_changed"), ("file", "a.md"), ("content", "c")]).isSome =
      (DirectoryHandler.validate_file_path ["ws"] ⟨[(["ws", "a.md"], "c")], [["ws"]]⟩
          (posixOf ((["ws", "a.md"] : List String).drop (["ws"] : List String).length)) &&
        contentReadOk ["ws"] ⟨[(["ws", "a.md"], "c")], [["ws"]]⟩ [] false
          (posixOf ((["ws", "a.md"] : List String).drop (["ws"] : List String).length))) :=
  broadcast_payload_shape false (some "h") [("type", "file_changed"), ("content", "h")]
    (by rfl) ["ws"] ⟨[(["ws", "a.md"], "c")], [["ws"]]⟩ [] false ["ws", "a.md"]
    [("type", "file_changed"), ("file", "a.md"), ("content", "c")] (by rfl)

/-! ## Claim C8. -/

/-- C8: for a relative path accepted by the containment check, deleteFile
raises the does-not-exist error (spec kind `NotFound`) when the target is
missing, the cannot-delete-directory error (spec kind `ValidationError`)
when the target is a directory — leaving the filesystem and the handler
cache unchanged in both cases — and otherwise unlinks the file and evicts
exactly the cache entry for the normalized path. -/
theorem delete_file_errors_and_eviction
    (root : List String) (cache : Cache) (rel norm : String) (absPath : List String)
    (hres : DirectoryHandler.resolve_workspace_path root rel = .ok (norm, absPath))
    (fs1 fs2 fs3 : FileSystem)
    (h1 : fs1.existsPath absPath = false)
    (h2 : fs2.isDir absPath = true)
    (h3f : fs3.isFile absPath = true) (h3d : fs3.isDir absPath = false)
    (fault : Bool) :
    DirectoryHandler.delete_file root fs1 cache rel fault =
      (.error (.fileReadError "File does not exist"), fs1, cache) ∧
    specErrorKind (.fileReadError "File does not exist") = ErrKind.notFound ∧
    DirectoryHandler.delete_file root fs2 cache rel fault =
      (.error (.fileWriteError "Cannot delete directory"), fs2, cache) ∧
    specErrorKind (.fileWriteError "Cannot delete directory") = ErrKind.validationError ∧
    DirectoryHandler.delete_file root fs3 cache rel false =
      (.ok (), fs3.removeFile absPath, cacheRemove cache norm) := by
  have h2e : fs2.existsPath absPath = true := by
    unfold FileSystem.existsPath
    rw [h2, Bool.or_true]
  have h3e : fs3.existsPath absPath = true := by
    unfold FileSystem.existsPath
    rw [h3f, Bool.true_or]
  refine ⟨?_, by decide, ?_, by decide, ?_⟩
  · simp only [DirectoryHandler.delete_file, hres, h1, Bool.not_false, if_true]
  · simp only [DirectoryHandler.delete_file, hres, h2e, h2, Bool.not_true,
      Bool.false_eq_true, if_false, if_true]
  · simp only [DirectoryHandler.delete_file, hres, h3e, h3d, Bool.not_true,
      Bool.false_eq_true, if_false]

/-- C8 witness: root `/ws`, relative path `a.md`; a filesystem without
the target, one where the target is a directory, and one where it is a
regular file. -/
theorem delete_file_errors_and_eviction_witness :
    DirectoryHandler.delete_file ["ws"] ⟨[], [["ws"]]⟩
        [("a.md", ["ws", "a.md"])] "a.md" true =
      (.error (.fileReadError "File does not exist"), ⟨[], [["ws"]]⟩,
        [("a.md", ["ws", "a.md"])]) ∧
    specErrorKind (.fileReadError "File does not exist") = ErrKind.notFound ∧
    DirectoryHandler.delete_file ["ws"] ⟨[], [["ws"], ["ws", "a.md"]]⟩
        [("a.md", ["ws", "a.md"])] "a.md" true =
      (.error (.fileWriteError "Cannot delete directory"), ⟨[], [["ws"], ["ws", "a.md"]]⟩,
        [("a.md", ["ws", "a.md"])]) ∧
    specErrorKind (.fileWriteError "Cannot delete directory") = ErrKind.validationError ∧
    DirectoryHandler.delete_file ["ws"] ⟨[(["ws", "a.md"], "c")], [["ws"]]⟩
        [("a.md", ["ws", "a.md"])] "a.md" false =
      (.ok (), FileSystem.removeFile ⟨[(["ws", "a.md"], "c")], [["ws"]]⟩ ["ws", "a.md"],
        cacheRemove [("a.md", ["ws", "a.md"])] "a.md") :=
  delete_file_errors_and_eviction ["ws"] [("a.md", ["ws", "a.md"])] "a.md" "a.md"
    ["ws", "a.md"] (by rfl) ⟨[], [["ws"]]⟩ ⟨[], [["ws"], ["ws", "a.md"]]⟩
    ⟨[(["ws", "a.md"], "c")], [["ws"]]⟩ (by rfl) (by rfl) (by rfl) (by rfl) true

/-! ## Claim C10. -/

theorem resolver_ok_isFile (root : List String) (fs : FileSystem) (rel norm : String)
    (absPath : List String)
    (h : DirectoryHandler.resolve_relative_markdown_path root fs rel = .ok (norm, absPath)) :
    fs.isFile (resolveSegs root (parseSegs (normalizeSlashes rel))) = true := by
  simp only [DirectoryHandler.resolve_relative_markdown_path] at h
  split at h
  · exact Except.noConfusion h
  · split at h
    · exact Except.noConfusion h
    · split at h
      · exact Except.noConfusion h
      · split at h
        · exact Except.noConfusion h
        · rename_i hfile
          simpa using hfile

/-- C10 (amended): when renamePath succeeds on a directory, only the
handler-cache entry keyed to the normalized relative
path of that directory is evicted; every handler cached for a file beneath it stays in the
cache under its old relative key with its old absolute path.  However, a
later `getStore` never hands out a handler for a path that no longer
exists on disk: `get_file_handler` succeeds only when the freshly
resolved path is currently an existing markdown file, because existence
is re-validated before the cache is consulted — so a `getStore` of the
old nested path fails with `NotFound` while that path is missing. -/
theorem rename_evicts_only_own_key
    (root : List String) (fs : FileSystem) (cache : Cache)
    (relDir newName norm : String) (src dst : List String)
    (fs2 : FileSystem) (cache2 : Cache)
    (hres : DirectoryHandler.resolve_workspace_path root relDir = .ok (norm, src))
    (hren : DirectoryHandler.rename_path root fs cache relDir newName false =
      (.ok dst, fs2, cache2))
    (k : String) (fp : List String) (hk : k ≠ norm)
    (hcache : cacheLookup cache k = some fp)
    (root3 : List String) (fs3 : FileSystem) (cache3 : Cache) (rel3 : String)
    (hok : (DirectoryHandler.get_file_handler root3 fs3 cache3 rel3).isOk = true) :
    cache2 = cacheRemove cache norm ∧
    cacheLookup cache2 k = some fp ∧
    fs3.isFile (resolveSegs root3 (parseSegs (normalizeSlashes rel3))) = true := by
  have hc2 : cache2 = cacheRemove cache norm := by
    simp only [DirectoryHandler.rename_path, hres] at hren
    split at hren
    · simp at hren
    · split at hren
      · simp at hren
      · split at hren
        · simp at hren
        · split at hren
          · simp at hren
          · split at hren
            · simp at hren
            · simp only [Prod.mk.injEq] at hren
              exact hren.2.2.symm
  refine ⟨hc2, ?_, ?_⟩
  · rw [hc2, cacheLookup_remove_ne cache norm k hk, hcache]
  · simp only [DirectoryHandler.get_file_handler] at hok
    split at hok
    · simp [Except.isOk, Except.toBool] at hok
    · rename_i normalized absPath heq
      exact resolver_ok_isFile root3 fs3 rel3 normalized absPath heq

/-- C10 counterexample: root `/ws` with directory `d` holding `d/a.md`;
after caching a handler for `d/a.md` and renaming `d` to `e`, the stale
entry for `d/a.md` is still in the cache, yet `getStore("d/a.md")` does
not return it (or any handler): it fails with the does-not-exist error,
because existence is re-checked on the resolved path before the cache is
consulted — refuting the claimed stale-handler return. -/
theorem rename_stale_cache_counterexample :
    DirectoryHandler.get_file_handler ["ws"]
        ⟨[(["ws", "d", "a.md"], "x")], [["ws"], ["ws", "d"]]⟩ [] "d/a.md" =
      .ok (["ws", "d", "a.md"], [("d/a.md", ["ws", "d", "a.md"])]) ∧
    DirectoryHandler.rename_path ["ws"]
        ⟨[(["ws", "d", "a.md"], "x")], [["ws"], ["ws", "d"]]⟩
        [("d/a.md", ["ws", "d", "a.md"])] "d" "e" false =
      (.ok ["ws", "e"], ⟨[(["ws", "e", "a.md"], "x")], [["ws"], ["ws", "e"]]⟩,
        [("d/a.md", ["ws", "d", "a.md"])]) ∧
    DirectoryHandler.get_file_handler ["ws"]
        ⟨[(["ws", "e", "a.md"], "x")], [["ws"], ["ws", "e"]]⟩
        [("d/a.md", ["ws", "d", "a.md"])] "d/a.md" =
      .error (.fileNotFoundError "File does not exist") := by
  exact ⟨rfl, rfl, rfl⟩

/-- C10 witness: the concrete rename of directory `d` to `e` with a
cached nested handler, and the safety fact instantiated at the
post-rename `getStore` of `e/a.md`. -/
theorem rename_evicts_only_own_key_witness :
    [("d/a.md", ["ws", "d", "a.md"])] =
      cacheRemove [("d/a.md", ["ws", "d", "a.md"])] "d" ∧
    cacheLookup [("d/a.md", ["ws", "d", "a.md"])] "d/a.md" = some ["ws", "d", "a.md"] ∧
    FileSystem.isFile ⟨[(["ws", "e", "a.md"], "x")], [["ws"], ["ws", "e"]]⟩
      (resolveSegs ["ws"] (parseSegs (normalizeSlashes "e/a.md"))) = true :=
  rename_evicts_only_own_key ["ws"]
    ⟨[(["ws", "d", "a.md"], "x")], [["ws"], ["ws", "d"]]⟩
    [("d/a.md", ["ws", "d", "a.md"])] "d" "e" "d" ["ws", "d"] ["ws", "e"]
    ⟨[(["ws", "e", "a.md"], "x")], [["ws"], ["ws", "e"]]⟩
    [("d/a.md", ["ws", "d", "a.md"])] (by rfl) (by rfl) "d/a.md" ["ws", "d", "a.md"]
    (by decide) (by rfl) ["ws"] ⟨[(["ws", "e", "a.md"], "x")], [["ws"], ["ws", "e"]]⟩
    [("d/a.md", ["ws", "d", "a.md"])] "e/a.md" (by rfl)

end MarkdownOS
